import Mathlib

/-!
Verification of the srsRAN_4G E2-agent core against its specification.

Part 1 embeds `src/lib/include/srslte/common/choice_type.h`: the compile-time
type list lookups (`type_indexer`, `type_get`), the tagged union with its
`is`/`get` accessors, and the `choice_t` assignment/emplace operations.
Types in the C++ parameter pack `Args...` are represented by codes drawn from
an arbitrary type `α` with decidable equality (`std::is_same` comparison);
the object stored in the aligned buffer is abstracted to a `Nat` payload.
Destructor invocations are made observable as a list of
`(type_id, value)` events so that "destroys the previous value exactly once"
is a provable statement.
-/

/-- `choice_details::invalid_idx = std::numeric_limits<std::size_t>::max()`. -/
def invalid_idx : Nat := 2 ^ 64 - 1

/-- `type_indexer<T, Types...>::index`: the index of type `t` in the list,
counted as the length of the pack remaining after the first match
(reversed position); `invalid_idx` when `t` does not occur. -/
def type_indexer {α : Type} [DecidableEq α] (t : α) : List α → Nat
  | [] => invalid_idx
  | f :: rest => if t = f then rest.length else type_indexer t rest

/-- `type_get<I, Types...>::type`: the type at reversed position `i`;
`none` models the `void` result on the empty pack. -/
def type_get {α : Type} [DecidableEq α] (i : Nat) : List α → Option α
  | [] => none
  | f :: rest => if i = rest.length then some f else type_get i rest

/-- `choice_details::bad_choice_access`, the exception thrown by `get`. -/
structure bad_choice_access where
  what : String
deriving DecidableEq

/-- `choice_details::tagged_union_t<Args...>`: the type-code list of the
pack, the `type_id` discriminant, and the buffer contents (abstracted). -/
structure tagged_union (α : Type) where
  args : List α
  type_id : Nat
  val : Nat
deriving DecidableEq

/-- `tagged_union_t::is<T>()`: `type_indexer<T, Args...>::index == type_id`. -/
def is_alt {α : Type} [DecidableEq α] (u : tagged_union α) (t : α) : Bool :=
  type_indexer t u.args = u.type_id

/-- `tagged_union_t::get<T>()`: returns the stored value when `T` is the
active alternative, otherwise throws `bad_choice_access("in get<T>")`.
The throw is modelled as `Except.error`. -/
def tu_get {α : Type} [DecidableEq α] (u : tagged_union α) (t : α) :
    Except bad_choice_access Nat :=
  if is_alt u t then Except.ok u.val else Except.error ⟨"in get<T>"⟩

/-- `tagged_union_t` construct (named with an unsafe suffix in the C++):
placement-new of a `U` with
value `v` into the buffer and `type_id = type_indexer<U, Args...>::index`.
Does not destroy whatever was in the buffer. -/
def tu_construct {α : Type} [DecidableEq α] (u : tagged_union α) (t : α) (v : Nat) :
    tagged_union α :=
  { u with type_id := type_indexer t u.args, val := v }

/-- `tagged_union_t` destructor call (named with an unsafe suffix in the
C++): calls the destructor of the active
value; observable as the single event `(type_id, val)`. -/
def tu_dtor {α : Type} (u : tagged_union α) : List (Nat × Nat) :=
  [(u.type_id, u.val)]

/-- `choice_t::operator=(U&& u)`: destroys the current value only when the
active alternative is not `U`, then placement-constructs the new value.
Returns the new state together with the destructor events emitted. -/
def choice_assign {α : Type} [DecidableEq α] (c : tagged_union α) (t : α) (v : Nat) :
    tagged_union α × List (Nat × Nat) :=
  (tu_construct c t v, if is_alt c t then [] else tu_dtor c)

/-- `choice_t::emplace<U>(args...)`: unconditionally destroys the current
value, then placement-constructs the new one. -/
def choice_emplace {α : Type} [DecidableEq α] (c : tagged_union α) (t : α) (v : Nat) :
    tagged_union α × List (Nat × Nat) :=
  (tu_construct c t v, tu_dtor c)

lemma type_indexer_lt_length {α : Type} [DecidableEq α] {t : α} {l : List α}
    (h : t ∈ l) : type_indexer t l < l.length := by
  induction l with
  | nil => cases h
  | cons f rest ih =>
      by_cases hf : t = f
      · simp [type_indexer, hf]
      · rcases List.mem_cons.mp h with h1 | h2
        · exact absurd h1 hf
        · simpa [type_indexer, hf] using Nat.lt_succ_of_lt (ih h2)

lemma type_indexer_not_mem {α : Type} [DecidableEq α] {t : α} {l : List α}
    (h : t ∉ l) : type_indexer t l = invalid_idx := by
  induction l with
  | nil => rfl
  | cons f rest ih =>
      have hf : t ≠ f := fun he => h (he ▸ List.mem_cons_self f rest)
      have hr : t ∉ rest := fun hm => h (List.mem_cons_of_mem f hm)
      simp [type_indexer, hf, ih hr]

lemma type_get_of_count_one {α : Type} [DecidableEq α] {t : α} {l : List α}
    (h : l.count t = 1) : type_get (type_indexer t l) l = some t := by
  induction l with
  | nil => simp at h
  | cons f rest ih =>
      by_cases hf : t = f
      · subst hf
        simp [type_indexer, type_get]
      · have hc : rest.count t = 1 := by
          simpa [List.count_cons, hf] using h
        have hm : t ∈ rest := by
          have hpos : 0 < rest.count t := by omega
          exact List.count_pos_iff.mp hpos
        have hlt : type_indexer t rest < rest.length := type_indexer_lt_length hm
        have hne : type_indexer t rest ≠ rest.length := Nat.ne_of_lt hlt
        simp [type_indexer, type_get, hf, hne]
        exact ih hc

/-- C10: the compile-time lookups are mutually inverse. For a type code
occurring exactly once in the pack, `type_get` at `type_indexer`'s result
recovers it; for a code not in the pack, the index is `invalid_idx`. -/
theorem type_lookups_inverse {α : Type} [DecidableEq α] (t : α) (l : List α) :
    (l.count t = 1 → type_get (type_indexer t l) l = some t)
    ∧ (t ∉ l → type_indexer t l = invalid_idx) :=
  ⟨fun h => type_get_of_count_one h, fun h => type_indexer_not_mem h⟩

/-- C10 witness: the inverse property evaluated on the concrete pack
`[0, 1, 2]` with member `1` and non-member `5`. -/
theorem type_lookups_inverse_witness :
    type_get (type_indexer 1 [0, 1, 2]) [0, 1, 2] = some 1
    ∧ type_indexer 5 [0, 1, 2] = invalid_idx :=
  ⟨(type_lookups_inverse 1 [0, 1, 2]).1 (by decide),
   (type_lookups_inverse 5 [0, 1, 2]).2 (by decide)⟩

/-- C9 counterexample: with pack `[0, 1]` and alternative `0` active
(`type_id = type_indexer 0 [0,1] = 1`, stored value `5`), assigning a new
value of the same alternative `0` emits no destructor event at all, so the
previously active value is not destroyed exactly once. -/
theorem choice_assign_same_alt_no_destroy :
    ¬ ((choice_assign (tagged_union.mk [0, 1] 1 5) 0 7).2.length = 1) := by
  decide

/-- C9 amended: assignment always leaves `U` as the single active
alternative with `get<U>()` returning the assigned value, and destroys the
previously active value exactly once when the previously active alternative
differs from `U`, but destroys nothing when `U` itself was active. -/
theorem choice_assign_spec {α : Type} [DecidableEq α]
    (c : tagged_union α) (t : α) (v : Nat) (_ht : t ∈ c.args) :
    is_alt (choice_assign c t v).1 t = true
    ∧ tu_get (choice_assign c t v).1 t = Except.ok v
    ∧ (∀ u : α, type_indexer u c.args ≠ type_indexer t c.args →
        is_alt (choice_assign c t v).1 u = false)
    ∧ (choice_assign c t v).2 =
        (if is_alt c t then [] else [(c.type_id, c.val)]) := by
  refine ⟨?_, ?_, ?_, ?_⟩
  · simp [choice_assign, is_alt, tu_construct]
  · simp [choice_assign, tu_get, is_alt, tu_construct]
  · intro u hu
    simp [choice_assign, is_alt, tu_construct]
    exact fun he => absurd he hu
  · simp [choice_assign, tu_dtor]

/-- C9 amended witness: the assignment spec evaluated at pack `[0, 1]`
with alternative `1` active and `0` assigned. -/
theorem choice_assign_spec_witness :
    is_alt (choice_assign (tagged_union.mk [0, 1] 0 5) 0 7).1 0 = true
    ∧ tu_get (choice_assign (tagged_union.mk [0, 1] 0 5) 0 7).1 0 = Except.ok 7
    ∧ (∀ u : Nat, type_indexer u [0, 1] ≠ type_indexer 0 [0, 1] →
        is_alt (choice_assign (tagged_union.mk [0, 1] 0 5) 0 7).1 u = false)
    ∧ (choice_assign (tagged_union.mk [0, 1] 0 5) 0 7).2 =
        (if is_alt (tagged_union.mk [0, 1] 0 5) 0 then []
         else [(0, 5)]) :=
  choice_assign_spec (tagged_union.mk [0, 1] 0 5) 0 7 (by decide)

/-!
Part 2 embeds `src/srsgnb/src/stack/ric/e2_agent.cc`: the run loop, the
receive/dispatch pipeline, and the procedure handlers. The ASN.1 PDU is
modelled by its envelope/procedure-code shape; byte decoding is abstracted
to its outcome (`Option e2_ap_pdu`, `none` = unpack failure). Functions of
the `e2ap` class live in `e2ap.cc`, which is not part of the sources; they
are modelled from the spec and are marked as such. Side effects (socket
sends, log lines, task-queue pushes) are made observable: sends and log
lines as an emitted `action` list, queue pushes in the agent state.
-/

/-- Inner procedure codes of an E2AP initiating message handled by
`e2_agent::handle_e2_init_msg` (plus `nulltype` for the unknown case). -/
inductive init_msg_type
  | ricsubscription_request (requestor inst_id ran_function : Nat)
  | ricsubscription_delete_request (requestor inst_id ran_function : Nat)
  | ri_cctrl_request
  | e2conn_upd
  | reset_request (transaction_id : Nat)
  | e2_removal_request
  | nulltype
deriving DecidableEq

/-- Inner procedure codes of an E2AP successful outcome handled by
`e2_agent::handle_e2_successful_outcome`. -/
inductive successful_outcome_type
  | e2setup_resp (peer_id : Nat)
  | ricsubscription_resp
  | ri_cctrl_ack
  | ricservice_upd_ack
  | ricsubscription_delete_resp
  | reset_resp
  | nulltype
deriving DecidableEq

/-- Inner procedure codes of an E2AP unsuccessful outcome handled by
`e2_agent::handle_e2_unsuccessful_outcome`. -/
inductive unsuccessful_outcome_type
  | e2setup_fail
  | e2node_cfg_upd_fail
  | ricservice_upd_fail
  | e2_removal_fail
  | nulltype
deriving DecidableEq

/-- `e2_ap_pdu_c`: outer envelope of a decoded E2AP PDU. -/
inductive e2_ap_pdu
  | init_msg (m : init_msg_type)
  | successful_outcome (m : successful_outcome_type)
  | unsuccessful_outcome (m : unsuccessful_outcome_type)
  | nulltype
deriving DecidableEq

/-- `e2_msg_type_t` values used by `e2_agent::send_e2_msg`; `other` stands
for any value hitting the default branch. -/
inductive e2_msg_type
  | E2_SETUP_REQUEST
  | E2_RESET
  | E2_RESET_RESPONSE
  | other
deriving DecidableEq

/-- Messages put on the wire by `send_e2ap_pdu`, identified by the
generating procedure. -/
inductive wire_msg
  | setup_request
  | reset_request_msg
  | reset_response
  | sub_response (requestor inst_id : Nat)
  | sub_delete_response (requestor inst_id : Nat)
deriving DecidableEq

/-- Observable side effects of the agent code: an SCTP send of an encoded
PDU, a log line, or a close of the RIC socket. -/
inductive action
  | send (m : wire_msg)
  | log_error (msg : String)
  | log_info (msg : String)
  | log_warning (msg : String)
  | close_transport
deriving DecidableEq

/-- Entries of `ric_rece_task_queue`: the deferred-send closures pushed by
the handlers (`send_e2_msg` of a fixed type, `send_e2ap_pdu` of a built
PDU) and the receive-path task wrapping `handle_e2_rx_msg` on a decode
outcome. -/
inductive task
  | send_msg (m : e2_msg_type)
  | send_pdu (m : wire_msg)
  | rx (p : Option e2_ap_pdu)
deriving DecidableEq

/-- Agent/session state: the `running` flag of `e2_agent`, and the session
data owned by the `e2ap` class (established flag, count of in-flight setup
procedures, reset bookkeeping, peer-assigned identifier, Subscription
Records keyed by (requestor, instance) with their RAN function, and the
FIFO task queue). `thread_joined` records that `wait_thread_finish` has
completed. -/
structure agent_state where
  running : Bool
  thread_joined : Bool
  established : Bool
  pending_setups : Nat
  reset_pending : Bool
  reset_id : Nat
  peer_id : Option Nat
  subscriptions : List (Nat × Nat × Nat)
  queue : List task
deriving DecidableEq

/-- `e2_agent::stop()`: clears `running` and joins the agent thread. The
join (`wait_thread_finish`, common thread wrapper not under the sources)
is modelled from the spec: "double-close and double-stop must be no-ops,
not errors" — it marks the thread joined and is idempotent. -/
def e2_agent_stop (s : agent_state) : agent_state :=
  { s with running := false, thread_joined := true }

/-- `srsran::unique_socket` holding the RIC SCTP socket: an optional open
descriptor, plus a counter of system `close` calls to observe
"closed exactly once". -/
structure unique_socket where
  fd : Option Nat
  sys_close_count : Nat
deriving DecidableEq

/-- Modelled from the spec: `srsran::unique_socket::close` is not under
the sources (only its caller `e2_agent` is). Spec §5: "close the Transport
Endpoint exactly once; double-close and double-stop must be no-ops, not
errors". Closing performs the system close only when a descriptor is open,
then marks the socket closed; closing an already-closed socket does
nothing. -/
def socket_close (k : unique_socket) : unique_socket :=
  match k.fd with
  | some _ => { fd := none, sys_close_count := k.sys_close_count + 1 }
  | none => k

/-- Modelled from the spec: `e2ap::send_setup_request` (file `e2ap.cc`,
not under the sources; only its caller `e2_agent::run_thread` is).
Spec: "At most one Pending Setup Procedure exists at any time; a second
setup attempt while one is pending is rejected, not duplicated" and
"(if no active session) Agent emits a Setup Request". It reports that a
setup should be sent, and registers the pending setup procedure, exactly
when no session is established and no setup is already in flight. -/
def send_setup_request (s : agent_state) : Bool × agent_state :=
  if s.established || s.pending_setups != 0 then (false, s)
  else (true, { s with pending_setups := s.pending_setups + 1 })

/-- Modelled from the spec: `e2ap::process_setup_response` (`e2ap.cc`, not
under the sources). Spec §4.5: "AwaitingSetupResponse --setup-success-->
Established: clears the pending setup procedure, records peer-assigned
identifiers." Returns the failure flag (never set) and the new state. -/
def process_setup_response (peer : Nat) (s : agent_state) : Bool × agent_state :=
  (false, { s with established := true, pending_setups := 0, peer_id := some peer })

/-- Modelled from the spec: `e2ap::process_e2_setup_failure` (`e2ap.cc`,
not under the sources). Spec §4.5: "AwaitingSetupResponse
--setup-failure-or-timeout--> Connecting: clears pending state, schedules
a retry after backoff." -/
def process_e2_setup_failure (s : agent_state) : Bool × agent_state :=
  (false, { s with pending_setups := 0 })

/-- Modelled from the spec: `e2ap::process_reset_request` (`e2ap.cc`, not
under the sources; only its caller `e2_agent::handle_reset_request` is).
Spec §4.5: "Established --reset-request--> Established: clears all
Subscription Records and Pending Procedures for the session, replies with
a reset acknowledgment; does NOT close the transport", and "the responder
must answer every reset request, including ones received while one is
already pending". It clears the Subscription Records and the pending
procedures, records the reset transaction id (`get_reset_id`), and
succeeds on every well-formed request. -/
def process_reset_request (tid : Nat) (s : agent_state) : Bool × agent_state :=
  (false, { s with subscriptions := [], pending_setups := 0, reset_id := tid })

/-- Modelled from the spec: `e2ap::process_reset_response` (`e2ap.cc`, not
under the sources). A pending outgoing reset procedure is "removed on
matching response" (spec §3); processing always succeeds. -/
def process_reset_response (s : agent_state) : Bool × agent_state :=
  (false, { s with reset_pending := false })

/-- Modelled from the spec: `e2ap::process_subscription_request`
(`e2ap.cc`, not under the sources; only its caller
`e2_agent::handle_ric_subscription_request` is). Spec §4.5: "Established
--subscription-request--> Established: creates/updates a Subscription
Record; always replies (grant or explicit refusal — never silently drops a
well-formed request)"; the record is "keyed by (requestor identifier,
instance identifier)" (spec §3). It inserts or updates the record and
queues exactly one response PDU (via `queue_send_e2ap_pdu`), succeeding on
every well-formed request. -/
def process_subscription_request (r i f : Nat) (s : agent_state) : Bool × agent_state :=
  (false, { s with
    subscriptions :=
      (r, i, f) :: s.subscriptions.filter (fun e => !(e.1 = r && e.2.1 = i)),
    queue := s.queue ++ [task.send_pdu (wire_msg.sub_response r i)] })

/-- Modelled from the spec: `e2ap::process_subscription_delete_request`
(`e2ap.cc`, not under the sources). Spec §3: a Subscription Record is
"destroyed on deletion"; the delete procedure is answered like the other
subscription procedures. It removes the record keyed (requestor, instance)
and queues exactly one response PDU. -/
def process_subscription_delete_request (r i : Nat) (s : agent_state) : Bool × agent_state :=
  (false, { s with
    subscriptions := s.subscriptions.filter (fun e => !(e.1 = r && e.2.1 = i)),
    queue := s.queue ++ [task.send_pdu (wire_msg.sub_delete_response r i)] })

/-- Modelled from the spec: the remaining `e2ap::process_*` failure
handlers called from `handle_e2_unsuccessful_outcome`
(`process_e2_node_config_update_failure`, `process_ric_service_update_failure`,
`process_e2_removal_failure`; `e2ap.cc`, not under the sources). The spec
does not cover these procedures beyond "logged and dropped — never fatal"
(§4.4); they succeed without touching the session state. -/
def process_other_failure (s : agent_state) : Bool × agent_state :=
  (false, s)

/-- `e2_agent::send_e2_msg`: generates the PDU for the named message type
and sends it (`send_e2ap_pdu` → encode → `send_sctp`); the default branch
logs and sends nothing. Returns the success flag and the emitted
effects. -/
def send_e2_msg (m : e2_msg_type) : Bool × List action :=
  match m with
  | e2_msg_type.E2_SETUP_REQUEST => (true, [action.send wire_msg.setup_request])
  | e2_msg_type.E2_RESET => (true, [action.send wire_msg.reset_request_msg])
  | e2_msg_type.E2_RESET_RESPONSE => (true, [action.send wire_msg.reset_response])
  | e2_msg_type.other => (false, [action.log_error "Unknown E2AP message type"])

/-- `e2_agent::handle_reset_request`: processes the reset (clearing the
session's records), logs the reset transaction id, and pushes one task
that will send the Reset Response; on processing failure it logs and
returns `false` without replying. -/
def handle_reset_request (tid : Nat) (s : agent_state) :
    Bool × agent_state × List action :=
  let r := process_reset_request tid s
  if r.1 then
    (false, r.2, [action.log_error "Failed to process E2 Reset Request"])
  else
    (true,
     { r.2 with queue := r.2.queue ++ [task.send_msg e2_msg_type.E2_RESET_RESPONSE] },
     [action.log_info "Reset transaction with ID"])

/-- `e2_agent::handle_reset_response`. -/
def handle_reset_response (s : agent_state) : Bool × agent_state × List action :=
  let r := process_reset_response s
  if r.1 then
    (false, r.2, [action.log_error "Failed to process E2 Reset Response"])
  else
    (true, r.2, [action.log_info "Reset Response successfully processed"])

/-- `e2_agent::handle_ric_subscription_request`. -/
def handle_ric_subscription_request (r i f : Nat) (s : agent_state) :
    Bool × agent_state × List action :=
  let p := process_subscription_request r i f s
  if p.1 then
    (false, p.2, [action.log_info "Received RIC Subscription Request from RIC",
                  action.log_error "Failed to process RIC subscription request"])
  else
    (true, p.2, [action.log_info "Received RIC Subscription Request from RIC"])

/-- `e2_agent::handle_ric_subscription_delete_request`. -/
def handle_ric_subscription_delete_request (r i : Nat) (s : agent_state) :
    Bool × agent_state × List action :=
  let p := process_subscription_delete_request r i s
  if p.1 then
    (false, p.2, [action.log_info "Received RIC Subscription Delete request from RIC",
                  action.log_error "Failed to process RIC subscription delete request"])
  else
    (true, p.2, [action.log_info "Received RIC Subscription Delete request from RIC"])

/-- `e2_agent::handle_e2_setup_response`. -/
def handle_e2_setup_response (peer : Nat) (s : agent_state) :
    Bool × agent_state × List action :=
  let p := process_setup_response peer s
  if p.1 then
    (false, p.2, [action.log_error "Failed to process E2 Setup Response"])
  else
    (true, p.2, [])

/-- `e2_agent::handle_e2_init_msg`: routes an initiating message by its
inner procedure code; unimplemented codes (RIC control, connection update,
removal) and unknown codes are logged and dropped; the function returns
`true` in every branch. -/
def handle_e2_init_msg (m : init_msg_type) (s : agent_state) :
    Bool × agent_state × List action :=
  match m with
  | init_msg_type.ricsubscription_request r i f =>
      let h := handle_ric_subscription_request r i f s
      (true, h.2.1, action.log_info "Received E2AP RIC Subscription Request" :: h.2.2)
  | init_msg_type.ricsubscription_delete_request r i _f =>
      let h := handle_ric_subscription_delete_request r i s
      (true, h.2.1, action.log_info "Received E2AP RIC Subscription Delete Request" :: h.2.2)
  | init_msg_type.ri_cctrl_request =>
      (true, s, [action.log_info "Received E2AP RIC Control Request"])
  | init_msg_type.e2conn_upd =>
      (true, s, [action.log_info "Received E2AP E2 Connection Update"])
  | init_msg_type.reset_request tid =>
      let h := handle_reset_request tid s
      (true, h.2.1, action.log_info "Received E2AP E2 Reset Request" :: h.2.2)
  | init_msg_type.e2_removal_request =>
      (true, s, [action.log_info "Received E2AP E2 Removal Request"])
  | init_msg_type.nulltype =>
      (true, s, [action.log_warning "Received E2AP Unknown Init Message"])

/-- `e2_agent::handle_e2_successful_outcome`: routes a successful outcome
by its inner procedure code; the subscription / control / service-update
acknowledgment branches only log (their handlers are commented out);
unknown codes are logged and dropped; returns `true` in every branch. -/
def handle_e2_successful_outcome (m : successful_outcome_type) (s : agent_state) :
    Bool × agent_state × List action :=
  match m with
  | successful_outcome_type.e2setup_resp peer =>
      let h := handle_e2_setup_response peer s
      (true, h.2.1, action.log_info "Received E2AP E2 Setup Response" :: h.2.2)
  | successful_outcome_type.ricsubscription_resp =>
      (true, s, [action.log_info "Received E2AP RIC Subscription Response"])
  | successful_outcome_type.ri_cctrl_ack =>
      (true, s, [action.log_info "Received E2AP RIC Control acknowlegement"])
  | successful_outcome_type.ricservice_upd_ack =>
      (true, s, [action.log_info "Received E2AP RIC Service Update acknowlegement"])
  | successful_outcome_type.ricsubscription_delete_resp =>
      (true, s, [action.log_info "Received E2AP RIC Subscription Delete Response"])
  | successful_outcome_type.reset_resp =>
      let h := handle_reset_response s
      (true, h.2.1, action.log_info "Received E2AP RIC Reset Response" :: h.2.2)
  | successful_outcome_type.nulltype =>
      (true, s, [action.log_info "Received E2AP Unknown Successful Outcome"])

/-- `e2_agent::handle_e2_unsuccessful_outcome`: routes an unsuccessful
outcome by its inner procedure code; unknown codes are logged and
dropped; returns `true` in every branch that processes successfully. -/
def handle_e2_unsuccessful_outcome (m : unsuccessful_outcome_type) (s : agent_state) :
    Bool × agent_state × List action :=
  match m with
  | unsuccessful_outcome_type.e2setup_fail =>
      let p := process_e2_setup_failure s
      if p.1 then
        (false, p.2, [action.log_info "Received E2AP E2 Setup Failure",
                      action.log_error "Failed to process E2 Setup Failure"])
      else
        (true, p.2, [action.log_info "Received E2AP E2 Setup Failure"])
  | unsuccessful_outcome_type.e2node_cfg_upd_fail =>
      let p := process_other_failure s
      if p.1 then
        (false, p.2, [action.log_info "Received E2node configuration update Failure",
                      action.log_error "Failed to process E2node configuration update Failure"])
      else
        (true, p.2, [action.log_info "Received E2node configuration update Failure"])
  | unsuccessful_outcome_type.ricservice_upd_fail =>
      let p := process_other_failure s
      if p.1 then
        (false, p.2, [action.log_info "Received E2AP RIC Service Update Failure",
                      action.log_error "Failed to process RIC service update failure"])
      else
        (true, p.2, [action.log_info "Received E2AP RIC Service Update Failure"])
  | unsuccessful_outcome_type.e2_removal_fail =>
      let p := process_other_failure s
      if p.1 then
        (false, p.2, [action.log_info "Received E2AP removal Unsuccessful Outcome",
                      action.log_error "Failed to process RIC service status failure"])
      else
        (true, p.2, [action.log_info "Received E2AP removal Unsuccessful Outcome"])
  | unsuccessful_outcome_type.nulltype =>
      (true, s, [action.log_info "Received E2AP Unknown Unsuccessful Outcome"])

/-- `e2_agent::handle_e2_rx_msg`: unpacks the received bytes (the decode
outcome is the `Option` argument; `none` = unpack failure) and classifies
the PDU by its outer envelope; an unpack failure is logged and the
function returns `false` with nothing else done; the return values of the
inner handlers are ignored and the function returns `true`. -/
def handle_e2_rx_msg (p : Option e2_ap_pdu) (s : agent_state) :
    Bool × agent_state × List action :=
  match p with
  | none => (false, s, [action.log_error "Failed to unpack RX E2 PDU"])
  | some (e2_ap_pdu.init_msg m) =>
      let h := handle_e2_init_msg m s
      (true, h.2.1, action.log_info "Received E2AP Init Message" :: h.2.2)
  | some (e2_ap_pdu.successful_outcome m) =>
      let h := handle_e2_successful_outcome m s
      (true, h.2.1, action.log_info "Received E2AP Successful Outcome" :: h.2.2)
  | some (e2_ap_pdu.unsuccessful_outcome m) =>
      let h := handle_e2_unsuccessful_outcome m s
      (true, h.2.1, action.log_info "Received E2AP Unsuccessful Outcome" :: h.2.2)
  | some e2_ap_pdu.nulltype =>
      (true, s, [action.log_warning "Received E2AP Unknown Message"])

/-- One entry of `ric_rece_task_queue` being executed by the scheduler:
the deferred sends run `send_e2_msg` / `send_e2ap_pdu`, the receive task
runs `handle_e2_rx_msg` (its boolean result is discarded). -/
def run_task (t : task) (s : agent_state) : agent_state × List action :=
  match t with
  | task.send_msg m => (s, (send_e2_msg m).2)
  | task.send_pdu w => (s, [action.send w])
  | task.rx p =>
      let h := handle_e2_rx_msg p s
      (h.2.1, h.2.2)

/-- `task_sched.run_next_task()`: pops and executes the next queued task
in FIFO order; with an empty queue it idles. -/
def run_next_task (s : agent_state) : agent_state × List action :=
  match s.queue with
  | [] => (s, [])
  | t :: rest => run_task t { s with queue := rest }

/-- One iteration of the `while (running)` body of
`e2_agent::run_thread`: send a Setup Request if `e2ap_.send_setup_request()`
asks for one, then run the next scheduled task. -/
def run_once (s : agent_state) : agent_state × List action :=
  let p := send_setup_request s
  let setup_acts := if p.1 then (send_e2_msg e2_msg_type.E2_SETUP_REQUEST).2 else []
  let r := run_next_task p.2
  (r.1, setup_acts ++ r.2)

/-- `e2_agent::run_thread` unrolled for `n` iterations, collecting the
emitted effects in order. -/
def run_loop : Nat → agent_state → agent_state × List action
  | 0, s => (s, [])
  | n + 1, s =>
      if s.running then
        let r := run_once s
        let l := run_loop n r.1
        (l.1, r.2 ++ l.2)
      else (s, [])

/-- The messages put on the wire by a list of effects, in order. -/
def sent (l : List action) : List wire_msg :=
  l.filterMap fun a =>
    match a with
    | action.send m => some m
    | _ => none

/-- Whether one effect closes the RIC socket. -/
def is_close (a : action) : Bool :=
  match a with
  | action.close_transport => true
  | _ => false

/-- Whether a list of effects closes the RIC socket. -/
def closes (l : List action) : Bool :=
  l.any is_close

/-- The agent state right after `e2_agent::init` succeeds and the thread
starts: running, no session, no pending setup, and the task queue holding
the receive tasks for the decode outcomes `q` the peer will deliver. -/
def init_state (q : List (Option e2_ap_pdu)) : agent_state :=
  { running := true, thread_joined := false, established := false,
    pending_setups := 0, reset_pending := false, reset_id := 0,
    peer_id := none, subscriptions := [], queue := q.map task.rx }

/-- Whether a decode outcome completes or cancels the pending Setup
procedure when dispatched: a Setup Response, a Setup Failure, or a Reset
Request (which clears all pending procedures). -/
def answers_setup (p : Option e2_ap_pdu) : Bool :=
  match p with
  | some (e2_ap_pdu.successful_outcome (successful_outcome_type.e2setup_resp _)) => true
  | some (e2_ap_pdu.unsuccessful_outcome unsuccessful_outcome_type.e2setup_fail) => true
  | some (e2_ap_pdu.init_msg (init_msg_type.reset_request _)) => true
  | _ => false

/-- Tasks that can sit in the queue without answering the pending setup
or sending a Setup Request themselves. -/
def task_ok (t : task) : Bool :=
  match t with
  | task.send_msg e2_msg_type.E2_SETUP_REQUEST => false
  | task.send_msg _ => true
  | task.send_pdu wire_msg.setup_request => false
  | task.send_pdu _ => true
  | task.rx p => !(answers_setup p)

lemma rx_never_fatal (p : Option e2_ap_pdu) (s : agent_state) :
    closes (handle_e2_rx_msg p s).2.2 = false
    ∧ (handle_e2_rx_msg p s).2.1.running = s.running := by
  cases p with
  | none => simp [handle_e2_rx_msg, closes, is_close]
  | some pdu =>
      cases pdu with
      | init_msg m =>
          cases m <;>
            simp [handle_e2_rx_msg, handle_e2_init_msg,
              handle_ric_subscription_request, handle_ric_subscription_delete_request,
              handle_reset_request, process_subscription_request,
              process_subscription_delete_request, process_reset_request,
              closes, is_close]
      | successful_outcome m =>
          cases m <;>
            simp [handle_e2_rx_msg, handle_e2_successful_outcome,
              handle_e2_setup_response, handle_reset_response,
              process_setup_response, process_reset_response,
              closes, is_close]
      | unsuccessful_outcome m =>
          cases m <;>
            simp [handle_e2_rx_msg, handle_e2_unsuccessful_outcome,
              process_e2_setup_failure, process_other_failure,
              closes, is_close]
      | nulltype => simp [handle_e2_rx_msg, closes, is_close]

/-- C1: every well-formed Reset Request is processed successfully
(regardless of the current state, so also while a previous reset is still
pending): all Subscription Records are cleared, exactly one task sending
the Reset Response is queued per request — the handler itself sends
nothing, and the queued task sends exactly one Reset Response — the
Established flag is untouched, and the transport is not closed. -/
theorem reset_request_always_answered (tid : Nat) (s : agent_state) :
    (handle_reset_request tid s).1 = true
    ∧ (handle_reset_request tid s).2.1.subscriptions = []
    ∧ (handle_reset_request tid s).2.1.established = s.established
    ∧ (handle_reset_request tid s).2.1.running = s.running
    ∧ (handle_reset_request tid s).2.1.queue
        = s.queue ++ [task.send_msg e2_msg_type.E2_RESET_RESPONSE]
    ∧ sent (handle_reset_request tid s).2.2 = []
    ∧ closes (handle_reset_request tid s).2.2 = false
    ∧ sent (run_task (task.send_msg e2_msg_type.E2_RESET_RESPONSE) s).2
        = [wire_msg.reset_response]
    ∧ closes (run_task (task.send_msg e2_msg_type.E2_RESET_RESPONSE) s).2 = false := by
  refine ⟨rfl, rfl, rfl, rfl, rfl, rfl, rfl, rfl, rfl⟩

/-- C2: a receive whose bytes fail to unpack is logged and dropped: the
handler returns `false`, the agent state is bit-for-bit unchanged, nothing
is sent, and the transport is not closed. -/
theorem decode_failure_is_local (s : agent_state) :
    handle_e2_rx_msg none s
      = (false, s, [action.log_error "Failed to unpack RX E2 PDU"])
    ∧ (handle_e2_rx_msg none s).2.1 = s
    ∧ sent (handle_e2_rx_msg none s).2.2 = []
    ∧ closes (handle_e2_rx_msg none s).2.2 = false :=
  ⟨rfl, rfl, rfl, rfl⟩

/-- C5: the dispatcher classifies a decoded PDU by its outer envelope and
routes it by inner procedure code to the matching handler (subscription
request / delete / reset request for initiating messages; setup response /
reset response for successful outcomes; setup failure for unsuccessful
outcomes); every unknown or unimplemented procedure code is logged and
dropped with the state unchanged; and dispatch of a decoded PDU always
returns `true`, never closes the transport, and never clears `running`. -/
theorem dispatcher_routes_by_envelope_and_code (s : agent_state)
    (r i f tid peer : Nat) (p : e2_ap_pdu) :
    (handle_e2_rx_msg
        (some (e2_ap_pdu.init_msg (init_msg_type.ricsubscription_request r i f))) s).2.1
       = (handle_ric_subscription_request r i f s).2.1
    ∧ (handle_e2_rx_msg
        (some (e2_ap_pdu.init_msg (init_msg_type.ricsubscription_delete_request r i f))) s).2.1
       = (handle_ric_subscription_delete_request r i s).2.1
    ∧ (handle_e2_rx_msg
        (some (e2_ap_pdu.init_msg (init_msg_type.reset_request tid))) s).2.1
       = (handle_reset_request tid s).2.1
    ∧ (handle_e2_rx_msg
        (some (e2_ap_pdu.successful_outcome (successful_outcome_type.e2setup_resp peer))) s).2.1
       = (handle_e2_setup_response peer s).2.1
    ∧ (handle_e2_rx_msg
        (some (e2_ap_pdu.successful_outcome successful_outcome_type.reset_resp)) s).2.1
       = (handle_reset_response s).2.1
    ∧ (handle_e2_rx_msg
        (some (e2_ap_pdu.unsuccessful_outcome unsuccessful_outcome_type.e2setup_fail)) s).2.1
       = (process_e2_setup_failure s).2
    ∧ handle_e2_rx_msg (some (e2_ap_pdu.init_msg init_msg_type.ri_cctrl_request)) s
       = (true, s, [action.log_info "Received E2AP Init Message",
                    action.log_info "Received E2AP RIC Control Request"])
    ∧ handle_e2_rx_msg (some (e2_ap_pdu.init_msg init_msg_type.e2conn_upd)) s
       = (true, s, [action.log_info "Received E2AP Init Message",
                    action.log_info "Received E2AP E2 Connection Update"])
    ∧ handle_e2_rx_msg (some (e2_ap_pdu.init_msg init_msg_type.e2_removal_request)) s
       = (true, s, [action.log_info "Received E2AP Init Message",
                    action.log_info "Received E2AP E2 Removal Request"])
    ∧ handle_e2_rx_msg (some (e2_ap_pdu.init_msg init_msg_type.nulltype)) s
       = (true, s, [action.log_info "Received E2AP Init Message",
                    action.log_warning "Received E2AP Unknown Init Message"])
    ∧ handle_e2_rx_msg
        (some (e2_ap_pdu.successful_outcome successful_outcome_type.ricsubscription_resp)) s
       = (true, s, [action.log_info "Received E2AP Successful Outcome",
                    action.log_info "Received E2AP RIC Subscription Response"])
    ∧ handle_e2_rx_msg
        (some (e2_ap_pdu.successful_outcome successful_outcome_type.ri_cctrl_ack)) s
       = (true, s, [action.log_info "Received E2AP Successful Outcome",
                    action.log_info "Received E2AP RIC Control acknowlegement"])
    ∧ handle_e2_rx_msg
        (some (e2_ap_pdu.successful_outcome successful_outcome_type.ricservice_upd_ack)) s
       = (true, s, [action.log_info "Received E2AP Successful Outcome",
                    action.log_info "Received E2AP RIC Service Update acknowlegement"])
    ∧ handle_e2_rx_msg
        (some (e2_ap_pdu.successful_outcome successful_outcome_type.ricsubscription_delete_resp)) s
       = (true, s, [action.log_info "Received E2AP Successful Outcome",
                    action.log_info "Received E2AP RIC Subscription Delete Response"])
    ∧ handle_e2_rx_msg
        (some (e2_ap_pdu.successful_outcome successful_outcome_type.nulltype)) s
       = (true, s, [action.log_info "Received E2AP Successful Outcome",
                    action.log_info "Received E2AP Unknown Successful Outcome"])
    ∧ handle_e2_rx_msg
        (some (e2_ap_pdu.unsuccessful_outcome unsuccessful_outcome_type.nulltype)) s
       = (true, s, [action.log_info "Received E2AP Unsuccessful Outcome",
                    action.log_info "Received E2AP Unknown Unsuccessful Outcome"])
    ∧ handle_e2_rx_msg (some e2_ap_pdu.nulltype) s
       = (true, s, [action.log_warning "Received E2AP Unknown Message"])
    ∧ (handle_e2_rx_msg (some p) s).1 = true
    ∧ closes (handle_e2_rx_msg (some p) s).2.2 = false
    ∧ (handle_e2_rx_msg (some p) s).2.1.running = s.running := by
  refine ⟨rfl, rfl, rfl, rfl, rfl, rfl, rfl, rfl, rfl, rfl, rfl, rfl, rfl, rfl,
    rfl, rfl, rfl, ?_, ?_, ?_⟩
  · cases p with
    | init_msg m => cases m <;> rfl
    | successful_outcome m => cases m <;> rfl
    | unsuccessful_outcome m => cases m <;> rfl
    | nulltype => rfl
  · exact (rx_never_fatal (some p) s).1
  · exact (rx_never_fatal (some p) s).2

/-- First Subscription Record with key (requestor, instance), returning
its RAN function identifier. -/
def lookup_sub (r i : Nat) : List (Nat × Nat × Nat) → Option Nat
  | [] => none
  | e :: rest => if e.1 = r && e.2.1 = i then some e.2.2 else lookup_sub r i rest

/-- C6: a well-formed Subscription Request handled in the Established
state creates or updates the Subscription Record keyed by the requestor
and instance identifiers — afterwards that key maps to the requested RAN
function and occurs exactly once — leaves the session Established, and
queues exactly one response task; the handler itself sends nothing, and
the queued task sends exactly one response message. -/
theorem subscription_request_recorded_and_answered (r i f : Nat) (s : agent_state)
    (hs : s.established = true) :
    (handle_ric_subscription_request r i f s).1 = true
    ∧ lookup_sub r i (handle_ric_subscription_request r i f s).2.1.subscriptions = some f
    ∧ (handle_ric_subscription_request r i f s).2.1.subscriptions.filter
        (fun e => e.1 = r && e.2.1 = i) = [(r, i, f)]
    ∧ (handle_ric_subscription_request r i f s).2.1.established = true
    ∧ (handle_ric_subscription_request r i f s).2.1.queue
        = s.queue ++ [task.send_pdu (wire_msg.sub_response r i)]
    ∧ sent (handle_ric_subscription_request r i f s).2.2 = []
    ∧ sent (run_task (task.send_pdu (wire_msg.sub_response r i)) s).2
        = [wire_msg.sub_response r i] := by
  refine ⟨rfl, ?_, ?_, ?_, rfl, rfl, rfl⟩
  · simp [handle_ric_subscription_request, process_subscription_request, lookup_sub]
  · simp only [handle_ric_subscription_request, process_subscription_request]
    simp [List.filter_filter]
  · simpa [handle_ric_subscription_request, process_subscription_request] using hs

/-- C6 witness: a Subscription Request for requestor 3, instance 1,
RAN function 2 handled in a concrete Established state. -/
theorem subscription_request_recorded_and_answered_witness :
    (handle_ric_subscription_request 3 1 2
      { running := true, thread_joined := false, established := true,
        pending_setups := 0, reset_pending := false, reset_id := 0,
        peer_id := some 7, subscriptions := [(4, 4, 0)], queue := [] }).1 = true
    ∧ lookup_sub 3 1 (handle_ric_subscription_request 3 1 2
      { running := true, thread_joined := false, established := true,
        pending_setups := 0, reset_pending := false, reset_id := 0,
        peer_id := some 7, subscriptions := [(4, 4, 0)], queue := [] }).2.1.subscriptions
      = some 2
    ∧ (handle_ric_subscription_request 3 1 2
      { running := true, thread_joined := false, established := true,
        pending_setups := 0, reset_pending := false, reset_id := 0,
        peer_id := some 7, subscriptions := [(4, 4, 0)], queue := [] }).2.1.subscriptions.filter
        (fun e => e.1 = 3 && e.2.1 = 1) = [(3, 1, 2)]
    ∧ (handle_ric_subscription_request 3 1 2
      { running := true, thread_joined := false, established := true,
        pending_setups := 0, reset_pending := false, reset_id := 0,
        peer_id := some 7, subscriptions := [(4, 4, 0)], queue := [] }).2.1.established = true
    ∧ (handle_ric_subscription_request 3 1 2
      { running := true, thread_joined := false, established := true,
        pending_setups := 0, reset_pending := false, reset_id := 0,
        peer_id := some 7, subscriptions := [(4, 4, 0)], queue := [] }).2.1.queue
        = [] ++ [task.send_pdu (wire_msg.sub_response 3 1)]
    ∧ sent (handle_ric_subscription_request 3 1 2
      { running := true, thread_joined := false, established := true,
        pending_setups := 0, reset_pending := false, reset_id := 0,
        peer_id := some 7, subscriptions := [(4, 4, 0)], queue := [] }).2.2 = []
    ∧ sent (run_task (task.send_pdu (wire_msg.sub_response 3 1))
      { running := true, thread_joined := false, established := true,
        pending_setups := 0, reset_pending := false, reset_id := 0,
        peer_id := some 7, subscriptions := [(4, 4, 0)], queue := [] }).2
        = [wire_msg.sub_response 3 1] :=
  subscription_request_recorded_and_answered 3 1 2
    { running := true, thread_joined := false, established := true,
      pending_setups := 0, reset_pending := false, reset_id := 0,
      peer_id := some 7, subscriptions := [(4, 4, 0)], queue := [] } rfl

/-- C7: stopping the agent is idempotent — a second `stop` leaves exactly
the state of the first and is not an error — and closing the transport
socket performs the system close exactly once: a close of an open socket
closes it, and a second close is a no-op that performs no further system
close. -/
theorem stop_and_close_idempotent (s : agent_state) (k : unique_socket) (fd : Nat)
    (hk : k.fd = some fd) :
    e2_agent_stop (e2_agent_stop s) = e2_agent_stop s
    ∧ (e2_agent_stop s).running = false
    ∧ socket_close (socket_close k) = socket_close k
    ∧ (socket_close k).sys_close_count = k.sys_close_count + 1
    ∧ (socket_close (socket_close k)).sys_close_count = k.sys_close_count + 1 := by
  refine ⟨rfl, rfl, ?_, ?_, ?_⟩ <;> simp [socket_close, hk]

/-- C7 witness: double stop and double close evaluated on a concrete
running agent state and a concrete open socket. -/
theorem stop_and_close_idempotent_witness :
    e2_agent_stop (e2_agent_stop
      { running := true, thread_joined := false, established := true,
        pending_setups := 0, reset_pending := false, reset_id := 0,
        peer_id := none, subscriptions := [], queue := [] })
      = e2_agent_stop
      { running := true, thread_joined := false, established := true,
        pending_setups := 0, reset_pending := false, reset_id := 0,
        peer_id := none, subscriptions := [], queue := [] }
    ∧ (e2_agent_stop
      { running := true, thread_joined := false, established := true,
        pending_setups := 0, reset_pending := false, reset_id := 0,
        peer_id := none, subscriptions := [], queue := [] }).running = false
    ∧ socket_close (socket_close (unique_socket.mk (some 3) 0))
        = socket_close (unique_socket.mk (some 3) 0)
    ∧ (socket_close (unique_socket.mk (some 3) 0)).sys_close_count = 0 + 1
    ∧ (socket_close (socket_close (unique_socket.mk (some 3) 0))).sys_close_count = 0 + 1 :=
  stop_and_close_idempotent
    { running := true, thread_joined := false, established := true,
      pending_setups := 0, reset_pending := false, reset_id := 0,
      peer_id := none, subscriptions := [], queue := [] }
    (unique_socket.mk (some 3) 0) 3 rfl

/-- C8 counterexample: `tagged_union_t::get<T>()` on a union whose active
alternative is not `T` (here: pack `[0, 1]`, alternative `0` active, `1`
requested) throws `bad_choice_access`, an exception no code in the core
catches — so not every error path is handled locally without throwing. -/
theorem variant_access_throws :
    tu_get (tagged_union.mk [0, 1] 1 5) 1
      = Except.error (bad_choice_access.mk "in get<T>") := rfl

/-- C8 amended: codec and protocol errors are handled locally — an unpack
failure leaves the state unchanged, and no dispatch of any decode outcome
ever closes the transport or clears the running flag — but a variant
access to a non-active alternative throws `bad_choice_access` (modelled as
`Except.error`), which the core never catches. -/
theorem errors_local_except_variant_access (s : agent_state)
    (p : Option e2_ap_pdu) (u : tagged_union Nat) (t : Nat)
    (h : is_alt u t = false) :
    (handle_e2_rx_msg none s).2.1 = s
    ∧ closes (handle_e2_rx_msg p s).2.2 = false
    ∧ (handle_e2_rx_msg p s).2.1.running = s.running
    ∧ tu_get u t = Except.error (bad_choice_access.mk "in get<T>") := by
  refine ⟨rfl, (rx_never_fatal p s).1, (rx_never_fatal p s).2, ?_⟩
  simp [tu_get, h]

/-- C8 amended witness: the amended property evaluated at a concrete
state, the decode-failure outcome, and a concrete union with the wrong
alternative requested. -/
theorem errors_local_except_variant_access_witness :
    (handle_e2_rx_msg none (init_state [])).2.1 = init_state []
    ∧ closes (handle_e2_rx_msg none (init_state [])).2.2 = false
    ∧ (handle_e2_rx_msg none (init_state [])).2.1.running = (init_state []).running
    ∧ tu_get (tagged_union.mk [0, 1] 1 6) 1
        = Except.error (bad_choice_access.mk "in get<T>") :=
  errors_local_except_variant_access (init_state []) none
    (tagged_union.mk [0, 1] 1 6) 1 (by decide)

lemma sent_append (a b : List action) : sent (a ++ b) = sent a ++ sent b := by
  simp [sent]

lemma run_task_pending (t : task) (s : agent_state) :
    (run_task t s).1.pending_setups = s.pending_setups
    ∨ (run_task t s).1.pending_setups = 0 := by
  cases t with
  | send_msg m => left; rfl
  | send_pdu w => left; rfl
  | rx p =>
      cases p with
      | none => left; rfl
      | some pdu =>
          cases pdu with
          | init_msg m =>
              cases m <;>
                simp [run_task, handle_e2_rx_msg, handle_e2_init_msg,
                  handle_ric_subscription_request, handle_ric_subscription_delete_request,
                  handle_reset_request, process_subscription_request,
                  process_subscription_delete_request, process_reset_request]
          | successful_outcome m =>
              cases m <;>
                simp [run_task, handle_e2_rx_msg, handle_e2_successful_outcome,
                  handle_e2_setup_response, handle_reset_response,
                  process_setup_response, process_reset_response]
          | unsuccessful_outcome m =>
              cases m <;>
                simp [run_task, handle_e2_rx_msg, handle_e2_unsuccessful_outcome,
                  process_e2_setup_failure, process_other_failure]
          | nulltype => left; rfl

lemma run_next_task_pending (s : agent_state) (h : s.pending_setups ≤ 1) :
    (run_next_task s).1.pending_setups ≤ 1 := by
  rcases hques : s.queue with _ | ⟨t, rest⟩
  · simpa [run_next_task, hques] using h
  · have hrt := run_task_pending t { s with queue := rest }
    simp only [run_next_task, hques]
    rcases hrt with h1 | h1 <;> rw [h1] <;> simp <;> omega

lemma run_once_pending (s : agent_state) (h : s.pending_setups ≤ 1) :
    (run_once s).1.pending_setups ≤ 1 := by
  cases hc : (s.established || s.pending_setups != 0) with
  | true =>
      have hsend : send_setup_request s = (false, s) := by
        simp only [send_setup_request, hc, if_true]
      simp only [run_once, hsend]
      exact run_next_task_pending s h
  | false =>
      have hp0 : s.pending_setups = 0 := by
        simp only [Bool.or_eq_false_iff] at hc
        simpa using hc.2
      have hsend : send_setup_request s
          = (true, { s with pending_setups := s.pending_setups + 1 }) := by
        simp [send_setup_request, hc]
      simp only [run_once, hsend]
      exact run_next_task_pending _ (by simp [hp0])

lemma run_loop_pending (n : Nat) (s : agent_state) (h : s.pending_setups ≤ 1) :
    (run_loop n s).1.pending_setups ≤ 1 := by
  induction n generalizing s with
  | zero => simpa [run_loop] using h
  | succ n ih =>
      cases hr : s.running with
      | false => simpa [run_loop, hr] using h
      | true =>
          simp only [run_loop, hr, if_true]
          exact ih _ (run_once_pending s h)

/-- C4: every state of the agent reachable by the run loop from a fresh
start carries at most one pending Setup procedure, and a setup attempt
made while one is already pending is rejected: `send_setup_request`
reports nothing to send and registers no second procedure. -/
theorem at_most_one_pending_setup (q : List (Option e2_ap_pdu)) (n : Nat)
    (s : agent_state) :
    (run_loop n (init_state q)).1.pending_setups ≤ 1
    ∧ (s.pending_setups = 1 → send_setup_request s = (false, s)) := by
  constructor
  · exact run_loop_pending n (init_state q) (by simp [init_state])
  · intro h
    simp [send_setup_request, h]

/-- C4 witness: the bound after three loop iterations over a concrete
inbound trace, and the rejection of a second setup attempt in a concrete
state with one setup pending. -/
theorem at_most_one_pending_setup_witness :
    (run_loop 3 (init_state
        [some (e2_ap_pdu.init_msg (init_msg_type.ricsubscription_request 3 1 2)),
         none])).1.pending_setups ≤ 1
    ∧ send_setup_request
        { running := true, thread_joined := false, established := false,
          pending_setups := 1, reset_pending := false, reset_id := 0,
          peer_id := none, subscriptions := [], queue := [] }
      = (false,
        { running := true, thread_joined := false, established := false,
          pending_setups := 1, reset_pending := false, reset_id := 0,
          peer_id := none, subscriptions := [], queue := [] }) :=
  ⟨(at_most_one_pending_setup
      [some (e2_ap_pdu.init_msg (init_msg_type.ricsubscription_request 3 1 2)), none] 3
      { running := true, thread_joined := false, established := false,
        pending_setups := 1, reset_pending := false, reset_id := 0,
        peer_id := none, subscriptions := [], queue := [] }).1,
   (at_most_one_pending_setup
      [some (e2_ap_pdu.init_msg (init_msg_type.ricsubscription_request 3 1 2)), none] 3
      { running := true, thread_joined := false, established := false,
        pending_setups := 1, reset_pending := false, reset_id := 0,
        peer_id := none, subscriptions := [], queue := [] }).2 rfl⟩

lemma run_task_safe (t : task) (s : agent_state)
    (ht : task_ok t = true)
    (hp : s.pending_setups = 1) (he : s.established = false)
    (hq : ∀ u ∈ s.queue, task_ok u = true) :
    (run_task t s).1.pending_setups = 1
    ∧ (run_task t s).1.established = false
    ∧ (∀ u ∈ (run_task t s).1.queue, task_ok u = true)
    ∧ (sent (run_task t s).2).count wire_msg.setup_request = 0 := by
  cases t with
  | send_msg m =>
      cases m with
      | E2_SETUP_REQUEST => simp [task_ok] at ht
      | E2_RESET => exact ⟨hp, he, hq, rfl⟩
      | E2_RESET_RESPONSE => exact ⟨hp, he, hq, rfl⟩
      | other => exact ⟨hp, he, hq, rfl⟩
  | send_pdu w =>
      cases w with
      | setup_request => simp [task_ok] at ht
      | reset_request_msg => exact ⟨hp, he, hq, rfl⟩
      | reset_response => exact ⟨hp, he, hq, rfl⟩
      | sub_response r i => exact ⟨hp, he, hq, rfl⟩
      | sub_delete_response r i => exact ⟨hp, he, hq, rfl⟩
  | rx p =>
      cases p with
      | none => exact ⟨hp, he, hq, rfl⟩
      | some pdu =>
          cases pdu with
          | init_msg m =>
              cases m with
              | ricsubscription_request r i f =>
                  refine ⟨hp, he, ?_, rfl⟩
                  intro u hu
                  rcases List.mem_append.mp hu with h1 | h1
                  · exact hq u h1
                  · have h2 : u = task.send_pdu (wire_msg.sub_response r i) :=
                      List.mem_singleton.mp h1
                    subst h2
                    rfl
              | ricsubscription_delete_request r i f =>
                  refine ⟨hp, he, ?_, rfl⟩
                  intro u hu
                  rcases List.mem_append.mp hu with h1 | h1
                  · exact hq u h1
                  · have h2 : u = task.send_pdu (wire_msg.sub_delete_response r i) :=
                      List.mem_singleton.mp h1
                    subst h2
                    rfl
              | ri_cctrl_request => exact ⟨hp, he, hq, rfl⟩
              | e2conn_upd => exact ⟨hp, he, hq, rfl⟩
              | reset_request tid => simp [task_ok, answers_setup] at ht
              | e2_removal_request => exact ⟨hp, he, hq, rfl⟩
              | nulltype => exact ⟨hp, he, hq, rfl⟩
          | successful_outcome m =>
              cases m with
              | e2setup_resp peer => simp [task_ok, answers_setup] at ht
              | ricsubscription_resp => exact ⟨hp, he, hq, rfl⟩
              | ri_cctrl_ack => exact ⟨hp, he, hq, rfl⟩
              | ricservice_upd_ack => exact ⟨hp, he, hq, rfl⟩
              | ricsubscription_delete_resp => exact ⟨hp, he, hq, rfl⟩
              | reset_resp => exact ⟨hp, he, hq, rfl⟩
              | nulltype => exact ⟨hp, he, hq, rfl⟩
          | unsuccessful_outcome m =>
              cases m with
              | e2setup_fail => simp [task_ok, answers_setup] at ht
              | e2node_cfg_upd_fail => exact ⟨hp, he, hq, rfl⟩
              | ricservice_upd_fail => exact ⟨hp, he, hq, rfl⟩
              | e2_removal_fail => exact ⟨hp, he, hq, rfl⟩
              | nulltype => exact ⟨hp, he, hq, rfl⟩
          | nulltype => exact ⟨hp, he, hq, rfl⟩

lemma run_next_task_safe (s : agent_state)
    (hp : s.pending_setups = 1) (he : s.established = false)
    (hq : ∀ u ∈ s.queue, task_ok u = true) :
    (run_next_task s).1.pending_setups = 1
    ∧ (run_next_task s).1.established = false
    ∧ (∀ u ∈ (run_next_task s).1.queue, task_ok u = true)
    ∧ (sent (run_next_task s).2).count wire_msg.setup_request = 0 := by
  rcases hques : s.queue with _ | ⟨t, rest⟩
  · simp only [run_next_task, hques]
    exact ⟨hp, he, by simpa [hques] using hq, rfl⟩
  · simp only [run_next_task, hques]
    have ht : task_ok t = true := hq t (by rw [hques]; exact List.mem_cons_self t rest)
    have hq2 : ∀ u ∈ rest, task_ok u = true := fun u hu =>
      hq u (by rw [hques]; exact List.mem_cons_of_mem t hu)
    exact run_task_safe t { s with queue := rest } ht hp he hq2

lemma run_once_safe (s : agent_state)
    (hp : s.pending_setups = 1) (he : s.established = false)
    (hq : ∀ u ∈ s.queue, task_ok u = true) :
    (run_once s).1.pending_setups = 1
    ∧ (run_once s).1.established = false
    ∧ (∀ u ∈ (run_once s).1.queue, task_ok u = true)
    ∧ (sent (run_once s).2).count wire_msg.setup_request = 0 := by
  have hsend : send_setup_request s = (false, s) := by
    simp [send_setup_request, hp]
  simp only [run_once, hsend]
  simpa using run_next_task_safe s hp he hq

lemma run_loop_safe (n : Nat) (s : agent_state)
    (hp : s.pending_setups = 1) (he : s.established = false)
    (hq : ∀ u ∈ s.queue, task_ok u = true) :
    (sent (run_loop n s).2).count wire_msg.setup_request = 0 := by
  induction n generalizing s with
  | zero => rfl
  | succ n ih =>
      cases hr : s.running with
      | false => simp [run_loop, hr, sent]
      | true =>
          obtain ⟨hp1, he1, hq1, hc1⟩ := run_once_safe s hp he hq
          simp only [run_loop, hr, if_true]
          rw [sent_append, List.count_append, hc1, ih _ hp1 he1 hq1]

lemma sent_cons_send (m : wire_msg) (l : List action) :
    sent (action.send m :: l) = m :: sent l := by
  simp [sent]

/-- C3: starting the agent with no prior session, the first message put on
the wire by the run loop is a Setup Request, and as long as no dispatched
message answers or cancels the pending setup, no second Setup Request is
emitted: the whole trace contains exactly one. -/
theorem setup_request_sent_first_and_once (q : List (Option e2_ap_pdu)) (n : Nat)
    (h : ∀ p ∈ q, answers_setup p = false) :
    (sent (run_loop (n + 1) (init_state q)).2).head? = some wire_msg.setup_request
    ∧ (sent (run_loop (n + 1) (init_state q)).2).count wire_msg.setup_request = 1 := by
  have hq0 : ∀ u ∈ ({ init_state q with pending_setups := 1 } : agent_state).queue,
      task_ok u = true := by
    intro u hu
    have hu2 : u ∈ q.map task.rx := hu
    rcases List.mem_map.mp hu2 with ⟨p, hpmem, rfl⟩
    simp [task_ok, h p hpmem]
  obtain ⟨hp1, he1, hq1, hc1⟩ :=
    run_next_task_safe { init_state q with pending_setups := 1 } rfl rfl hq0
  have hrest := run_loop_safe n _ hp1 he1 hq1
  have hunroll : run_loop (n + 1) (init_state q)
      = ((run_loop n (run_once (init_state q)).1).1,
         (run_once (init_state q)).2 ++ (run_loop n (run_once (init_state q)).1).2) := by
    rfl
  have honce : run_once (init_state q)
      = ((run_next_task { init_state q with pending_setups := 1 }).1,
         action.send wire_msg.setup_request
           :: (run_next_task { init_state q with pending_setups := 1 }).2) := by
    rfl
  constructor
  · rw [hunroll, honce]
    rw [List.cons_append, sent_cons_send]
    rfl
  · rw [hunroll, honce]
    rw [List.cons_append, sent_cons_send]
    simp [sent_append, List.count_cons, List.count_append, hc1, hrest]

/-- C3 witness: the first-and-only Setup Request over a concrete inbound
trace (a Subscription Request, then a malformed message) and two loop
iterations. -/
theorem setup_request_sent_first_and_once_witness :
    (sent (run_loop (1 + 1) (init_state
        [some (e2_ap_pdu.init_msg (init_msg_type.ricsubscription_request 3 1 2)),
         none])).2).head? = some wire_msg.setup_request
    ∧ (sent (run_loop (1 + 1) (init_state
        [some (e2_ap_pdu.init_msg (init_msg_type.ricsubscription_request 3 1 2)),
         none])).2).count wire_msg.setup_request = 1 :=
  setup_request_sent_first_and_once
    [some (e2_ap_pdu.init_msg (init_msg_type.ricsubscription_request 3 1 2)), none] 1
    (by decide)
